import Mathlib

/-
  Verification of the NodeServicePlugin process-lifecycle supervisor
  (apps/heft/src/plugins/NodeServicePlugin.ts).

  The plugin is a four-state machine (Stopped, Running, Stopping, Killing)
  driven by timer firings, child-process close/error notifications and
  rebuild-completed events.  We embed its mutable fields as a record `Sup`,
  its private methods as pure functions `Sup → Sup × List Effect ×
  Option InternalError` (the `Option InternalError` component records a
  thrown `InternalError`; the returned state reflects the mutations made
  before the throw, as in JavaScript), and OS timers as an explicit list
  `osTimers` together with the `_timeout` field holding the handle of the
  last armed timer — so "at most one timer is armed" is a provable
  invariant rather than a modelling assumption.

  Time is modelled as `Int` milliseconds; within one synchronous handler
  `performance.now()` is a single value `now` passed as a parameter.
-/

namespace NodeService

/-- The `State` enum of the plugin. -/
inductive State where
  | Stopped
  | Running
  | Stopping
  | Killing
deriving DecidableEq, Repr

/-- `INodeServicePluginCompleteConfiguration`. -/
structure Config where
  commandName : String
  ignoreMissingScript : Bool
  waitBeforeRestartMs : Int
  waitForTerminateMs : Int
  waitForKillMs : Int
deriving DecidableEq, Repr

/-- What a pending `setTimeout` callback will do when it fires:
`restart` calls `_restartChild`, `terminate` escalates via
`_transitionToKilling`, `kill` abandons via `_transitionToStopped`. -/
inductive TimerKind where
  | restart
  | terminate
  | kill
deriving DecidableEq, Repr

/-- An armed OS timer: its handle, its callback kind, and the absolute
time at which it fires (arming time + delay). -/
structure Timer where
  id : Nat
  kind : TimerKind
  fireAt : Int
deriving DecidableEq, Repr

/-- The `InternalError` exception from `@rushstack/node-core-library`. -/
structure InternalError where
  msg : String
deriving DecidableEq, Repr

/-- Externally visible actions emitted by the supervisor: process-group
signals, process spawns, and log lines at each severity. -/
inductive Effect where
  | spawned (pid : Nat)
  | sigterm (pid : Nat)
  | sigkill (pid : Nat)
  | logInfo (msg : String)
  | logVerbose (msg : String)
  | logWarning (msg : String)
  | logError (msg : String)
  | consoleError (msg : String)
deriving DecidableEq, Repr

/-- The mutable fields of `NodeServicePlugin`: `_state`,
`_activeChildProcess` (as an abstract pid), `_timeout` (the stored
timer handle), `_restartTime`, `_childProcessFailed`, plus the armed OS
timers `osTimers` and fresh-id/pid counters that model `setTimeout`
handle allocation and `child_process.spawn`. -/
structure Sup where
  state : State
  isWindows : Bool
  config : Config
  activeChildProcess : Option Nat
  timeout : Option Nat
  osTimers : List Timer
  nextTimerId : Nat
  nextPid : Nat
  restartTime : Option Int
  childProcessFailed : Bool
deriving DecidableEq, Repr

/-- Result of running one handler: the state after it returns (or after
the point of a throw), the effects emitted, and the thrown
`InternalError` if any. -/
abbrev Result := Sup × List Effect × Option InternalError

/-- `_clearTimeout`: if `_timeout` holds a handle, `clearTimeout` it
(disarming that OS timer) and reset the field. -/
def clearTimeout (s : Sup) : Sup :=
  match s.timeout with
  | some id =>
      { s with osTimers := s.osTimers.filter (fun t => t.id != id), timeout := none }
  | none => s

/-- The `this._timeout = setTimeout(cb, delay)` pattern: arm a fresh OS
timer firing at absolute time `fireAt` and store its handle in
`_timeout`.  Every `setTimeout` call site in the source immediately
assigns the handle to `this._timeout`. -/
def armTimer (s : Sup) (k : TimerKind) (fireAt : Int) : Sup :=
  { s with
      osTimers := s.osTimers ++ [⟨s.nextTimerId, k, fireAt⟩],
      timeout := some s.nextTimerId,
      nextTimerId := s.nextTimerId + 1 }

/-- `_scheduleRestart(msFromNow)`: raise `_restartTime` to
`now + msFromNow` when it is unset or smaller; cancel any pending timer
and arm a restart timer with delay `max 0 (_restartTime - now)`. -/
def scheduleRestart (now msFromNow : Int) (s : Sup) : Sup × List Effect :=
  let newTime := now + msFromNow
  let rt : Int :=
    match s.restartTime with
    | none => newTime
    | some r => if newTime > r then newTime else r
  let s1 := clearTimeout { s with restartTime := some rt }
  (armTimer s1 TimerKind.restart (now + max 0 (rt - now)),
   [Effect.logVerbose "Extending timeout"])

/-- `_restartChild`: throws `InternalError` unless Stopped; otherwise
enters Running, clears any timer, and spawns a fresh child. -/
def restartChild (s : Sup) : Result :=
  if s.state ≠ State.Stopped then
    (s, [], some ⟨"Invalid state"⟩)
  else
    let s1 := clearTimeout { s with state := State.Running }
    let pid := s1.nextPid
    let s2 := { s1 with activeChildProcess := some pid, nextPid := pid + 1 }
    (s2,
     [Effect.logInfo "Invoking command", Effect.spawned pid,
      Effect.logVerbose "Started child"],
     none)

/-- `_transitionToKilling`: enter Killing, clear the timer, send SIGKILL
to the process tree and arm the abandonment timer for `waitForKillMs`.
Throws (after the state mutation, as in the source) if there is no
active child. -/
def transitionToKilling (now : Int) (s : Sup) : Result :=
  let s1 := clearTimeout { s with state := State.Killing }
  match s1.activeChildProcess with
  | none =>
      (s1, [Effect.logVerbose "Sending SIGKILL"],
       some ⟨"_activeChildProcess should not be undefined"⟩)
  | some pid =>
      let s2 := clearTimeout s1
      (armTimer s2 TimerKind.kill (now + s.config.waitForKillMs),
       [Effect.logVerbose "Sending SIGKILL", Effect.logVerbose "Sending SIGKILL",
        Effect.sigkill pid],
       none)

/-- `_stopChild`: no-op unless Running.  On Windows go directly to
Killing; otherwise enter Stopping, send SIGTERM to the process group and
arm the escalation timer for `waitForTerminateMs`. -/
def stopChild (now : Int) (s : Sup) : Result :=
  if s.state ≠ State.Running then (s, [], none)
  else if s.isWindows then transitionToKilling now s
  else
    match s.activeChildProcess with
    | none => (s, [], some ⟨"_activeChildProcess should not be undefined"⟩)
    | some pid =>
        let s1 := clearTimeout { s with state := State.Stopping }
        let s2 := clearTimeout s1
        (armTimer s2 TimerKind.terminate (now + s.config.waitForTerminateMs),
         [Effect.logVerbose "Sending SIGTERM", Effect.sigterm pid],
         none)

/-- `_transitionToStopped`: enter Stopped, clear the timer, drop the
child handle; schedule a restart unless `_childProcessFailed`. -/
def transitionToStopped (now : Int) (s : Sup) : Result :=
  let s1 := { clearTimeout { s with state := State.Stopped } with
                activeChildProcess := none }
  if s1.childProcessFailed then
    (s1,
     [Effect.logInfo "The child process failed. Waiting for a code change before restarting..."],
     none)
  else
    let r := scheduleRestart now s1.config.waitBeforeRestartMs s1
    (r.1, r.2, none)

/-- Fire the armed timer with handle `id` at time `now`: the OS dequeues
it, the callback sets `this._timeout = undefined` and then runs the body
registered at the corresponding `setTimeout` site. -/
def fireTimer (now : Int) (id : Nat) (s : Sup) : Result :=
  match s.osTimers.find? (fun t => t.id == id) with
  | none => (s, [], none)
  | some t =>
      let s1 := { s with osTimers := s.osTimers.filter (fun u => u.id != id),
                         timeout := none }
      match t.kind with
      | TimerKind.restart =>
          let r := restartChild s1
          (r.1, Effect.logVerbose "Time to restart" :: r.2.1, r.2.2)
      | TimerKind.terminate =>
          let r := transitionToKilling now s1
          (r.1, Effect.logWarning "Child is taking too long to terminate" :: r.2.1, r.2.2)
      | TimerKind.kill =>
          let r := transitionToStopped now s1
          (r.1, Effect.logError "Abandoning child process because SIGKILL did not work" :: r.2.1, r.2.2)

/-- The `close` event handler registered in `_restartChild`: unexpected
termination while Running sets `_childProcessFailed`; a close while
Stopping or Killing is the awaited exit; anything else falls through. -/
def onClose (now : Int) (s : Sup) : Result :=
  if s.state = State.Running then
    let r := transitionToStopped now { s with childProcessFailed := true }
    (r.1, Effect.logWarning "Child terminated unexpectedly" :: r.2.1, r.2.2)
  else if s.state = State.Stopping ∨ s.state = State.Killing then
    let r := transitionToStopped now s
    (r.1, Effect.logVerbose "Child terminated successfully" :: r.2.1, r.2.2)
  else (s, [], none)

/-- The `error` event handler registered in `_restartChild`. -/
def onError (now : Int) (s : Sup) : Result :=
  if s.state = State.Running then
    let r := transitionToStopped now { s with childProcessFailed := true }
    (r.1, Effect.logError "Failed to start" :: r.2.1, r.2.2)
  else if s.state = State.Stopping then
    let r := transitionToKilling now s
    (r.1, Effect.logWarning "Child rejected shutdown signal" :: r.2.1, r.2.2)
  else if s.state = State.Killing then
    let r := transitionToStopped now s
    (r.1, Effect.logError "Child rejected kill signal" :: r.2.1, r.2.2)
  else (s, [], none)

/-- `_compileHooks_afterEachIteration` (the rebuild-completed event):
clear `_childProcessFailed`; extend the restart debounce if Stopped,
otherwise stop the child.  The surrounding try/catch absorbs any
`InternalError` into a `console.error` line. -/
def afterEachIteration (now : Int) (s : Sup) : Result :=
  let s1 := { s with childProcessFailed := false }
  let r : Result :=
    if s1.state = State.Stopped then
      let q := scheduleRestart now s1.config.waitBeforeRestartMs s1
      (q.1, q.2, none)
    else stopChild now s1
  match r.2.2 with
  | some e => (r.1, r.2.1 ++ [Effect.consoleError ("UNCAUGHT: " ++ e.msg)], none)
  | none => r

/-- The supervisor as constructed: Stopped, nothing armed, no child,
no pending restart deadline, failure flag clear. -/
def initialSup (isWindows : Bool) (cfg : Config) : Sup :=
  { state := State.Stopped, isWindows := isWindows, config := cfg,
    activeChildProcess := none, timeout := none, osTimers := [],
    nextTimerId := 0, nextPid := 1, restartTime := none,
    childProcessFailed := false }

/-- A trace element: an effect together with the time it was emitted. -/
structure TimedEffect where
  time : Int
  eff : Effect
deriving DecidableEq, Repr

/-- Tag a batch of effects with the time of the handler run. -/
def tagAt (t : Int) (l : List Effect) : List TimedEffect :=
  l.map (fun e => ⟨t, e⟩)

/-- The earliest-firing armed timer, if any. -/
def earliest : List Timer → Option Timer
  | [] => none
  | t :: ts =>
      match earliest ts with
      | none => some t
      | some u => if t.fireAt ≤ u.fireAt then some t else some u

/-- Run up to `fuel` timer firings, always firing the earliest armed
timer at its deadline, collecting the timed effect trace.  This is the
execution of the system when no external event intervenes (a child that
never exits delivers no close/error events). -/
def runTimers : Nat → Sup → List TimedEffect × Sup
  | 0, s => ([], s)
  | Nat.succ n, s =>
      match earliest s.osTimers with
      | none => ([], s)
      | some t =>
          let r := fireTimer t.fireAt t.id s
          let rest := runTimers n r.1
          (tagAt t.fireAt r.2.1 ++ rest.1, rest.2)

/-- Whether an effect is an OS process signal. -/
def isSignal : Effect → Bool
  | Effect.sigterm _ => true
  | Effect.sigkill _ => true
  | _ => false

/-- The signals of a trace. -/
def signalsOf (l : List TimedEffect) : List TimedEffect :=
  l.filter (fun te => isSignal te.eff)

/-- The PendingTimer invariant: the armed OS timers are exactly the one
referenced by `_timeout`, or none at all. -/
def TimerInv (s : Sup) : Prop :=
  match s.timeout, s.osTimers with
  | none, ts => ts = []
  | some id, [t] => t.id = id
  | some _, _ => False

/-- A sample configuration (the documented defaults). -/
def cfg0 : Config :=
  { commandName := "serve", ignoreMissingScript := false,
    waitBeforeRestartMs := 2000, waitForTerminateMs := 2000,
    waitForKillMs := 2000 }

/-! ### Helper lemmas -/

theorem timerInv_congr (s t : Sup) (h1 : s.timeout = t.timeout)
    (h2 : s.osTimers = t.osTimers) (h : TimerInv s) : TimerInv t := by
  unfold TimerInv at h ⊢
  rw [← h1, ← h2]
  exact h

theorem timerInv_cases (s : Sup) (h : TimerInv s) :
    (s.timeout = none ∧ s.osTimers = []) ∨
    (∃ tid t, s.timeout = some tid ∧ s.osTimers = [t] ∧ t.id = tid) := by
  unfold TimerInv at h
  cases hto : s.timeout with
  | none =>
      rw [hto] at h
      exact Or.inl ⟨rfl, h⟩
  | some tid =>
      rw [hto] at h
      cases hots : s.osTimers with
      | nil => rw [hots] at h; exact h.elim
      | cons t ts =>
          cases ts with
          | nil => rw [hots] at h; exact Or.inr ⟨tid, t, rfl, rfl, h⟩
          | cons t2 ts2 => rw [hots] at h; exact h.elim

theorem timerInv_of_none (s : Sup) (h1 : s.timeout = none)
    (h2 : s.osTimers = []) : TimerInv s := by
  unfold TimerInv
  rw [h1, h2]

theorem timerInv_of_single (s : Sup) (tid : Nat) (t : Timer)
    (h1 : s.timeout = some tid) (h2 : s.osTimers = [t]) (h3 : t.id = tid) :
    TimerInv s := by
  unfold TimerInv
  rw [h1, h2]
  exact h3

theorem clearTimeout_clears (s : Sup) (h : TimerInv s) :
    clearTimeout s = { s with osTimers := [], timeout := none } := by
  obtain ⟨st, iw, cfg, acp, tmo, ots, nti, np, rt, cpf⟩ := s
  rcases timerInv_cases _ h with ⟨h1, h2⟩ | ⟨tid, t, h1, h2, h3⟩
  · replace h1 : tmo = none := h1
    replace h2 : ots = [] := h2
    subst h1; subst h2
    rfl
  · replace h1 : tmo = some tid := h1
    replace h2 : ots = [t] := h2
    subst h1; subst h2
    obtain ⟨tId, tk, tf⟩ := t
    replace h3 : tId = tid := h3
    subst h3
    simp [clearTimeout]

theorem clearTimeout_none (s : Sup) (h : s.timeout = none) :
    clearTimeout s = s := by
  simp [clearTimeout, h]

theorem timerInv_armTimer (s : Sup) (k : TimerKind) (f : Int)
    (h : s.osTimers = []) : TimerInv (armTimer s k f) :=
  timerInv_of_single _ s.nextTimerId ⟨s.nextTimerId, k, f⟩ rfl
    (by simp [armTimer, h]) rfl

/-! ### Claim C8 -/

/-- Claim C8: a stop request issued while the Supervisor is in the
Stopped state is a no-op: the state record (every field) is unchanged,
no effect (signal or log line) is emitted, and no error is raised. -/
theorem stop_request_in_stopped_is_noop (now : Int) (s : Sup)
    (h : s.state = State.Stopped) : stopChild now s = (s, [], none) := by
  simp [stopChild, h]

theorem stop_request_in_stopped_is_noop_witness :
    (initialSup false cfg0).state = State.Stopped ∧
    stopChild 0 (initialSup false cfg0) = (initialSup false cfg0, [], none) :=
  ⟨rfl, stop_request_in_stopped_is_noop 0 (initialSup false cfg0) rfl⟩

/-! ### Claim C10 -/

/-- Claim C10: a process `close` or `error` notification delivered while
the Supervisor is already Stopped is ignored entirely: no transition, no
flag change, no scheduling, no signal, no log output — the handlers
return the state unchanged with an empty effect list. -/
theorem close_error_ignored_in_stopped (now : Int) (s : Sup)
    (h : s.state = State.Stopped) :
    onClose now s = (s, [], none) ∧ onError now s = (s, [], none) := by
  constructor
  · simp [onClose, h]
  · simp [onError, h]

theorem close_error_ignored_in_stopped_witness :
    onClose 7 (initialSup false cfg0) = (initialSup false cfg0, [], none) ∧
    onError 7 (initialSup false cfg0) = (initialSup false cfg0, [], none) :=
  close_error_ignored_in_stopped 7 (initialSup false cfg0) rfl

/-! ### The RestartScheduler (claims C3 and C7) -/

theorem clearTimeout_restartTime (s : Sup) :
    (clearTimeout s).restartTime = s.restartTime := by
  cases hs : s.timeout <;> simp [clearTimeout, hs]

/-- The value of `_restartTime` after `_scheduleRestart`: the candidate
`now + msFromNow` when nothing was pending or the candidate is later,
otherwise the pending deadline. -/
theorem scheduleRestart_restartTime (now d : Int) (s : Sup) :
    (scheduleRestart now d s).1.restartTime =
      some (match s.restartTime with
            | none => now + d
            | some r => if now + d > r then now + d else r) := by
  unfold scheduleRestart armTimer
  simp [clearTimeout_restartTime]

/-- Full characterization of `_scheduleRestart` on states satisfying the
timer invariant. -/
theorem scheduleRestart_eq (now d rt : Int) (s : Sup) (hinv : TimerInv s)
    (hrt : rt = match s.restartTime with
                | none => now + d
                | some r => if now + d > r then now + d else r) :
    (scheduleRestart now d s).1 =
      { s with
          restartTime := some rt,
          osTimers := [Timer.mk s.nextTimerId TimerKind.restart (now + max 0 (rt - now))],
          timeout := some s.nextTimerId,
          nextTimerId := s.nextTimerId + 1 } := by
  subst hrt
  have h2 := clearTimeout_clears
    { s with restartTime := some (match s.restartTime with
                                  | none => now + d
                                  | some r => if now + d > r then now + d else r) }
    (timerInv_congr s _ rfl rfl hinv)
  simp [scheduleRestart, h2, armTimer]

/-- Claim C3: `requestRestart(delay)` computes the candidate
`now + delay`; it replaces the pending RestartDeadline exactly when none
is pending or the candidate is strictly later; and in every case the old
timer is cancelled and a single fresh timer is armed, firing at
`now + max 0 (RestartDeadline - now)`, i.e. after `max 0
(RestartDeadline - now)`. -/
theorem scheduleRestart_contract (now delay : Int) (s : Sup)
    (hinv : TimerInv s) :
    ((s.restartTime = none ∨ ∃ r, s.restartTime = some r ∧ now + delay > r) →
        (scheduleRestart now delay s).1.restartTime = some (now + delay)) ∧
    ((∃ r, s.restartTime = some r ∧ ¬ now + delay > r) →
        (scheduleRestart now delay s).1.restartTime = s.restartTime) ∧
    (∃ id r, (scheduleRestart now delay s).1.restartTime = some r ∧
        (scheduleRestart now delay s).1.timeout = some id ∧
        (scheduleRestart now delay s).1.osTimers =
          [Timer.mk id TimerKind.restart (now + max 0 (r - now))]) := by
  refine ⟨?_, ?_, ?_⟩
  · rintro (hr | ⟨r, hr, hlt⟩)
    · simp [scheduleRestart_restartTime, hr]
    · simp [scheduleRestart_restartTime, hr, hlt]
  · rintro ⟨r, hr, hge⟩
    simp [scheduleRestart_restartTime, hr, hge]
  · rw [scheduleRestart_eq now delay _ s hinv rfl]
    exact ⟨s.nextTimerId, _, rfl, rfl, rfl⟩

/-- A concrete Stopped state with a pending restart deadline of 100 and
its restart timer armed (handle 0). -/
def pendingSup : Sup :=
  { state := State.Stopped, isWindows := false, config := cfg0,
    activeChildProcess := none, timeout := some 0,
    osTimers := [⟨0, TimerKind.restart, 100⟩], nextTimerId := 1,
    nextPid := 1, restartTime := some 100, childProcessFailed := false }

theorem pendingSup_inv : TimerInv pendingSup := rfl

theorem scheduleRestart_contract_witness :
    TimerInv pendingSup ∧
    (((pendingSup.restartTime = none ∨
        ∃ r, pendingSup.restartTime = some r ∧ 0 + 2000 > r) →
        (scheduleRestart 0 2000 pendingSup).1.restartTime = some (0 + 2000)) ∧
     ((∃ r, pendingSup.restartTime = some r ∧ ¬ 0 + 2000 > r) →
        (scheduleRestart 0 2000 pendingSup).1.restartTime = pendingSup.restartTime) ∧
     (∃ id r, (scheduleRestart 0 2000 pendingSup).1.restartTime = some r ∧
        (scheduleRestart 0 2000 pendingSup).1.timeout = some id ∧
        (scheduleRestart 0 2000 pendingSup).1.osTimers =
          [Timer.mk id TimerKind.restart (0 + max 0 (r - 0))])) :=
  ⟨pendingSup_inv, scheduleRestart_contract 0 2000 pendingSup pendingSup_inv⟩

/-- Apply a sequence of `_scheduleRestart` calls, each with its own
observation of `performance.now()` and its own delay. -/
def applyRestartCalls (calls : List (Int × Int)) (s : Sup) : Sup :=
  calls.foldl (fun t c => (scheduleRestart c.1 c.2 t).1) s

theorem scheduleRestart_deadline_step (now d : Int) (s : Sup) (r : Int)
    (h : s.restartTime = some r) :
    ∃ r2, (scheduleRestart now d s).1.restartTime = some r2 ∧ r ≤ r2 := by
  rw [scheduleRestart_restartTime, h]
  by_cases hlt : now + d > r
  · exact ⟨now + d, by simp [hlt], le_of_lt hlt⟩
  · exact ⟨r, by simp [hlt], le_refl r⟩

/-- Claim C7: across any sequence of `requestRestart` calls, with any
times and delays, a pending RestartDeadline never decreases: after the
whole sequence the deadline is still pending and at least its initial
value (each call only raises it or leaves it unchanged, by
`scheduleRestart_deadline_step` applied at every step). -/
theorem restartDeadline_monotone (calls : List (Int × Int)) (s : Sup)
    (r : Int) (h : s.restartTime = some r) :
    ∃ r2, (applyRestartCalls calls s).restartTime = some r2 ∧ r ≤ r2 := by
  induction calls generalizing s r with
  | nil => exact ⟨r, h, le_refl r⟩
  | cons c cs ih =>
      obtain ⟨r1, h1, hle1⟩ := scheduleRestart_deadline_step c.1 c.2 s r h
      obtain ⟨r2, h2, hle2⟩ := ih _ _ h1
      exact ⟨r2, by simpa [applyRestartCalls, List.foldl] using h2,
             le_trans hle1 hle2⟩

theorem restartDeadline_monotone_witness :
    ∃ r2, (applyRestartCalls [(0, 50), (10, 500), (20, 5)] pendingSup).restartTime
            = some r2 ∧ 100 ≤ r2 :=
  restartDeadline_monotone [(0, 50), (10, 500), (20, 5)] pendingSup 100 rfl

/-! ### The timer invariant (claim C9) -/

theorem timerInv_scheduleRestart (now d : Int) (s : Sup) (h : TimerInv s) :
    TimerInv (scheduleRestart now d s).1 := by
  rw [scheduleRestart_eq now d _ s h rfl]
  exact timerInv_of_single _ _ _ rfl rfl rfl

theorem timerInv_restartChild (s : Sup) (h : TimerInv s) :
    TimerInv (restartChild s).1 := by
  obtain ⟨st, iw, cfg, acp, tmo, ots, nti, np, rt, cpf⟩ := s
  by_cases hs : st = State.Stopped
  · subst hs
    have h2 := clearTimeout_clears ⟨State.Running, iw, cfg, acp, tmo, ots, nti, np, rt, cpf⟩
      (timerInv_congr _ _ rfl rfl h)
    simp [restartChild, h2]
    exact timerInv_of_none _ rfl rfl
  · simp [restartChild, hs]
    exact h

theorem timerInv_transitionToKilling (now : Int) (s : Sup) (h : TimerInv s) :
    TimerInv (transitionToKilling now s).1 := by
  obtain ⟨st, iw, cfg, acp, tmo, ots, nti, np, rt, cpf⟩ := s
  have h2 := clearTimeout_clears ⟨State.Killing, iw, cfg, acp, tmo, ots, nti, np, rt, cpf⟩
    (timerInv_congr _ _ rfl rfl h)
  cases acp with
  | none =>
      simp [transitionToKilling, h2]
      exact timerInv_of_none _ rfl rfl
  | some pid =>
      simp [transitionToKilling, h2, clearTimeout_none]
      exact timerInv_of_single _ _ _ rfl rfl rfl

theorem timerInv_stopChild (now : Int) (s : Sup) (h : TimerInv s) :
    TimerInv (stopChild now s).1 := by
  obtain ⟨st, iw, cfg, acp, tmo, ots, nti, np, rt, cpf⟩ := s
  by_cases hs : st = State.Running
  · subst hs
    cases iw with
    | true =>
        simp [stopChild]
        exact timerInv_transitionToKilling now _ h
    | false =>
        cases acp with
        | none =>
            simp [stopChild]
            exact h
        | some pid =>
            have h2 := clearTimeout_clears
              ⟨State.Stopping, false, cfg, some pid, tmo, ots, nti, np, rt, cpf⟩
              (timerInv_congr _ _ rfl rfl h)
            simp [stopChild, h2, clearTimeout_none]
            exact timerInv_of_single _ _ _ rfl rfl rfl
  · simp [stopChild, hs]
    exact h

theorem timerInv_transitionToStopped (now : Int) (s : Sup) (h : TimerInv s) :
    TimerInv (transitionToStopped now s).1 := by
  obtain ⟨st, iw, cfg, acp, tmo, ots, nti, np, rt, cpf⟩ := s
  have h2 := clearTimeout_clears ⟨State.Stopped, iw, cfg, acp, tmo, ots, nti, np, rt, cpf⟩
    (timerInv_congr _ _ rfl rfl h)
  cases cpf with
  | true =>
      simp [transitionToStopped, h2]
      exact timerInv_of_none _ rfl rfl
  | false =>
      simp [transitionToStopped, h2]
      exact timerInv_scheduleRestart _ _ _ (timerInv_of_none _ rfl rfl)

theorem timerInv_fireTimer (now : Int) (id : Nat) (s : Sup) (h : TimerInv s) :
    TimerInv (fireTimer now id s).1 := by
  obtain ⟨st, iw, cfg, acp, tmo, ots, nti, np, rt, cpf⟩ := s
  rcases timerInv_cases _ h with ⟨h1, h2⟩ | ⟨tid, t, h1, h2, h3⟩
  · replace h1 : tmo = none := h1
    replace h2 : ots = [] := h2
    subst h1; subst h2
    simp [fireTimer]
    exact timerInv_of_none _ rfl rfl
  · replace h1 : tmo = some tid := h1
    replace h2 : ots = [t] := h2
    subst h1; subst h2
    obtain ⟨tId, tk, tf⟩ := t
    replace h3 : tId = tid := h3
    subst h3
    by_cases hid : tId = id
    · subst hid
      cases tk with
      | restart =>
          simp [fireTimer]
          exact timerInv_restartChild _ (timerInv_of_none _ rfl rfl)
      | terminate =>
          simp [fireTimer]
          exact timerInv_transitionToKilling now _ (timerInv_of_none _ rfl rfl)
      | kill =>
          simp [fireTimer]
          exact timerInv_transitionToStopped now _ (timerInv_of_none _ rfl rfl)
    · simp [fireTimer, hid]
      exact timerInv_of_single _ _ _ rfl rfl rfl

theorem timerInv_onClose (now : Int) (s : Sup) (h : TimerInv s) :
    TimerInv (onClose now s).1 := by
  obtain ⟨st, iw, cfg, acp, tmo, ots, nti, np, rt, cpf⟩ := s
  by_cases h1 : st = State.Running
  · simp [onClose, h1]
    exact timerInv_transitionToStopped now _ (timerInv_congr _ _ rfl rfl h)
  · by_cases h2 : st = State.Stopping ∨ st = State.Killing
    · simp [onClose, h1, h2]
      exact timerInv_transitionToStopped now _ h
    · simp [onClose, h1, h2]
      exact h

theorem timerInv_onError (now : Int) (s : Sup) (h : TimerInv s) :
    TimerInv (onError now s).1 := by
  obtain ⟨st, iw, cfg, acp, tmo, ots, nti, np, rt, cpf⟩ := s
  by_cases h1 : st = State.Running
  · simp [onError, h1]
    exact timerInv_transitionToStopped now _ (timerInv_congr _ _ rfl rfl h)
  · by_cases h2 : st = State.Stopping
    · simp [onError, h1, h2]
      exact timerInv_transitionToKilling now _ h
    · by_cases h3 : st = State.Killing
      · simp [onError, h1, h2, h3]
        exact timerInv_transitionToStopped now _ h
      · simp [onError, h1, h2, h3]
        exact h

theorem timerInv_afterEachIteration (now : Int) (s : Sup) (h : TimerInv s) :
    TimerInv (afterEachIteration now s).1 := by
  obtain ⟨st, iw, cfg, acp, tmo, ots, nti, np, rt, cpf⟩ := s
  by_cases h1 : st = State.Stopped
  · simp [afterEachIteration, h1]
    exact timerInv_scheduleRestart now _ _ (timerInv_congr _ _ rfl rfl h)
  · have hstep := timerInv_stopChild now ⟨st, iw, cfg, acp, tmo, ots, nti, np, rt, false⟩
      (timerInv_congr _ _ rfl rfl h)
    cases herr : (stopChild now ⟨st, iw, cfg, acp, tmo, ots, nti, np, rt, false⟩).2.2 with
    | none => simp [afterEachIteration, h1, herr]; exact hstep
    | some e => simp [afterEachIteration, h1, herr]; exact hstep

theorem timerInv_length (s : Sup) (h : TimerInv s) : s.osTimers.length ≤ 1 := by
  rcases timerInv_cases _ h with ⟨h1, h2⟩ | ⟨tid, t, h1, h2, h3⟩ <;> simp [h2]

/-- Claim C9: under the PendingTimer invariant — the armed OS timers
are exactly the one referenced by the `_timeout` field, or none — at
most one timer is armed, and every operation of the supervisor (each
handler arms a timer only after cancelling the previous one) preserves
the invariant, so the number of armed timers is always 0 or 1. -/
theorem at_most_one_timer_armed (s : Sup) (h : TimerInv s) :
    s.osTimers.length ≤ 1 ∧
    (∀ now delay, TimerInv (scheduleRestart now delay s).1) ∧
    TimerInv (restartChild s).1 ∧
    (∀ now, TimerInv (stopChild now s).1) ∧
    (∀ now, TimerInv (transitionToKilling now s).1) ∧
    (∀ now, TimerInv (transitionToStopped now s).1) ∧
    (∀ now id, TimerInv (fireTimer now id s).1) ∧
    (∀ now, TimerInv (onClose now s).1) ∧
    (∀ now, TimerInv (onError now s).1) ∧
    (∀ now, TimerInv (afterEachIteration now s).1) :=
  ⟨timerInv_length s h,
   fun now delay => timerInv_scheduleRestart now delay s h,
   timerInv_restartChild s h,
   fun now => timerInv_stopChild now s h,
   fun now => timerInv_transitionToKilling now s h,
   fun now => timerInv_transitionToStopped now s h,
   fun now id => timerInv_fireTimer now id s h,
   fun now => timerInv_onClose now s h,
   fun now => timerInv_onError now s h,
   fun now => timerInv_afterEachIteration now s h⟩

theorem at_most_one_timer_armed_witness :
    pendingSup.osTimers.length ≤ 1 ∧
    (∀ now delay, TimerInv (scheduleRestart now delay pendingSup).1) ∧
    TimerInv (restartChild pendingSup).1 ∧
    (∀ now, TimerInv (stopChild now pendingSup).1) ∧
    (∀ now, TimerInv (transitionToKilling now pendingSup).1) ∧
    (∀ now, TimerInv (transitionToStopped now pendingSup).1) ∧
    (∀ now id, TimerInv (fireTimer now id pendingSup).1) ∧
    (∀ now, TimerInv (onClose now pendingSup).1) ∧
    (∀ now, TimerInv (onError now pendingSup).1) ∧
    (∀ now, TimerInv (afterEachIteration now pendingSup).1) :=
  at_most_one_timer_armed pendingSup pendingSup_inv

/-! ### Windows stop requests (claim C6) -/

/-- Claim C6: on a platform without reliable group signaling
(`isWindows`), a stop request while Running transitions directly to
Killing — the result state is Killing (Stopping is never assigned on
this path), no graceful signal (SIGTERM) is emitted, the forceful signal
(SIGKILL) is emitted, and the abandonment timer is armed to fire
`waitForKillMs` from now. -/
theorem windows_stop_direct_to_killing (now : Int) (s : Sup) (pid : Nat)
    (hw : s.isWindows = true) (hr : s.state = State.Running)
    (hc : s.activeChildProcess = some pid) (hinv : TimerInv s) :
    (stopChild now s).1.state = State.Killing ∧
    (∀ p, Effect.sigterm p ∉ (stopChild now s).2.1) ∧
    Effect.sigkill pid ∈ (stopChild now s).2.1 ∧
    (∃ id, (stopChild now s).1.timeout = some id ∧
       (stopChild now s).1.osTimers =
         [Timer.mk id TimerKind.kill (now + s.config.waitForKillMs)]) ∧
    (stopChild now s).2.2 = none := by
  obtain ⟨st, iw, cfg, acp, tmo, ots, nti, np, rt, cpf⟩ := s
  replace hw : iw = true := hw
  replace hr : st = State.Running := hr
  replace hc : acp = some pid := hc
  subst hw; subst hr; subst hc
  have h2 := clearTimeout_clears
    ⟨State.Killing, true, cfg, some pid, tmo, ots, nti, np, rt, cpf⟩
    (timerInv_congr _ _ rfl rfl hinv)
  refine ⟨?_, ?_, ?_, ⟨nti, ?_, ?_⟩, ?_⟩ <;>
    simp [stopChild, transitionToKilling, h2, clearTimeout_none, armTimer]

/-- A concrete Running state on Windows with child pid 1. -/
def winRunningSup : Sup :=
  { state := State.Running, isWindows := true, config := cfg0,
    activeChildProcess := some 1, timeout := none, osTimers := [],
    nextTimerId := 5, nextPid := 2, restartTime := none,
    childProcessFailed := false }

theorem windows_stop_direct_to_killing_witness :
    (stopChild 3 winRunningSup).1.state = State.Killing ∧
    (∀ p, Effect.sigterm p ∉ (stopChild 3 winRunningSup).2.1) ∧
    Effect.sigkill 1 ∈ (stopChild 3 winRunningSup).2.1 ∧
    (∃ id, (stopChild 3 winRunningSup).1.timeout = some id ∧
       (stopChild 3 winRunningSup).1.osTimers =
         [Timer.mk id TimerKind.kill (3 + winRunningSup.config.waitForKillMs)]) ∧
    (stopChild 3 winRunningSup).2.2 = none :=
  windows_stop_direct_to_killing 3 winRunningSup 1 rfl rfl rfl rfl

/-! ### Entering Stopped (claim C5) -/

theorem runTimers_empty (fuel : Nat) (s : Sup) (h : s.osTimers = []) :
    runTimers fuel s = ([], s) := by
  cases fuel with
  | zero => rfl
  | succ n => simp [runTimers, h, earliest]

/-- Claim C5: on every entry into Stopped (`_transitionToStopped`), on a
state whose pending restart deadline is not in the future (true of every
reachable state: the deadline is only raised while Stopped and is
consumed at its own time) and whose configured delay is nonnegative: if
FailureFlag is false, a restart is scheduled for exactly
`waitBeforeRestartMs` from now (deadline and armed timer both at
`now + waitBeforeRestartMs`); if FailureFlag is true, no timer at all is
armed, and consequently no timer ever fires no matter how much time
passes — until a rebuild-completed event intervenes. -/
theorem enter_stopped_restart_policy (now : Int) (s : Sup)
    (hinv : TimerInv s) (hw : 0 ≤ s.config.waitBeforeRestartMs)
    (hstale : ∀ r, s.restartTime = some r → r ≤ now) :
    (s.childProcessFailed = false →
       (transitionToStopped now s).1.restartTime
           = some (now + s.config.waitBeforeRestartMs) ∧
       ∃ id, (transitionToStopped now s).1.timeout = some id ∧
         (transitionToStopped now s).1.osTimers =
           [Timer.mk id TimerKind.restart (now + s.config.waitBeforeRestartMs)]) ∧
    (s.childProcessFailed = true →
       (transitionToStopped now s).1.timeout = none ∧
       (transitionToStopped now s).1.osTimers = [] ∧
       ∀ fuel, runTimers fuel (transitionToStopped now s).1
                 = ([], (transitionToStopped now s).1)) := by
  obtain ⟨st, iw, cfg, acp, tmo, ots, nti, np, rt, cpf⟩ := s
  have h2 := clearTimeout_clears
    ⟨State.Stopped, iw, cfg, acp, tmo, ots, nti, np, rt, cpf⟩
    (timerInv_congr _ _ rfl rfl hinv)
  have hmax : max 0 (now + cfg.waitBeforeRestartMs - now) = cfg.waitBeforeRestartMs := by
    rw [show now + cfg.waitBeforeRestartMs - now = cfg.waitBeforeRestartMs from by ring]
    exact max_eq_right hw
  cases cpf with
  | true =>
      constructor
      · intro h; simp at h
      · intro _
        refine ⟨?_, ?_, ?_⟩ <;>
          simp [transitionToStopped, h2, runTimers_empty]
  | false =>
      constructor
      · intro _
        cases rt with
        | none =>
            refine ⟨?_, nti, ?_, ?_⟩ <;>
              simp [transitionToStopped, h2, scheduleRestart, clearTimeout_none,
                    armTimer, hmax] <;> exact hw
        | some r =>
            have hr := hstale r rfl
            by_cases hgt : now + cfg.waitBeforeRestartMs > r
            · refine ⟨?_, nti, ?_, ?_⟩ <;>
                simp [transitionToStopped, h2, scheduleRestart, clearTimeout_none,
                      armTimer, hmax, hgt] <;> exact hw
            · have hreq : r = now + cfg.waitBeforeRestartMs := by omega
              subst hreq
              refine ⟨?_, nti, ?_, ?_⟩ <;>
                simp [transitionToStopped, h2, scheduleRestart, clearTimeout_none,
                      armTimer, hmax, hgt] <;> exact hw
      · intro h; simp at h

theorem enter_stopped_restart_policy_witness :
    ((initialSup false cfg0).childProcessFailed = false →
       (transitionToStopped 5 (initialSup false cfg0)).1.restartTime
           = some (5 + (initialSup false cfg0).config.waitBeforeRestartMs) ∧
       ∃ id, (transitionToStopped 5 (initialSup false cfg0)).1.timeout = some id ∧
         (transitionToStopped 5 (initialSup false cfg0)).1.osTimers =
           [Timer.mk id TimerKind.restart
              (5 + (initialSup false cfg0).config.waitBeforeRestartMs)]) ∧
    ((initialSup false cfg0).childProcessFailed = true →
       (transitionToStopped 5 (initialSup false cfg0)).1.timeout = none ∧
       (transitionToStopped 5 (initialSup false cfg0)).1.osTimers = [] ∧
       ∀ fuel, runTimers fuel (transitionToStopped 5 (initialSup false cfg0)).1
                 = ([], (transitionToStopped 5 (initialSup false cfg0)).1)) :=
  enter_stopped_restart_policy 5 (initialSup false cfg0) rfl (by decide)
    (fun r h => nomatch h)

/-! ### Restart timer firing (claims C1 and C2) -/

/-- A state in the race the spec describes for C1: the supervisor has
left Stopped (it is Running) while a restart timer (handle 0, deadline
100) is still armed. -/
def raceSup : Sup :=
  { state := State.Running, isWindows := false, config := cfg0,
    activeChildProcess := some 1, timeout := some 0,
    osTimers := [⟨0, TimerKind.restart, 100⟩], nextTimerId := 1,
    nextPid := 2, restartTime := some 100, childProcessFailed := false }

/-- Claim C1, counterexample: firing the restart timer while the
Supervisor is Running is NOT a silent no-op — the callback invokes
`_restartChild`, whose guard throws `InternalError("Invalid state")`,
contradicting "no error is raised". -/
theorem restart_fire_outside_stopped_cex :
    raceSup.state ≠ State.Stopped ∧
    (fireTimer 100 0 raceSup).2.2 = some ⟨"Invalid state"⟩ := by
  constructor
  · decide
  · rfl

/-- Claim C1 as amended: if the restart timer fires while the Supervisor
is not in Stopped, then indeed no transition occurs, no child is
spawned, and the pending deadline is untouched, but the fire is not
silent: an `InternalError("Invalid state")` is thrown by
`_restartChild`.  A later entry into Stopped (with the failure flag
clear) does still schedule a fresh restart. -/
theorem restart_fire_outside_stopped_raises (now f : Int) (id : Nat)
    (s : Sup) (hs : s.state ≠ State.Stopped)
    (ht : s.osTimers = [Timer.mk id TimerKind.restart f]) :
    (fireTimer now id s).1.state = s.state ∧
    (fireTimer now id s).1.activeChildProcess = s.activeChildProcess ∧
    (fireTimer now id s).1.restartTime = s.restartTime ∧
    (∀ p, Effect.spawned p ∉ (fireTimer now id s).2.1) ∧
    (fireTimer now id s).2.2 = some ⟨"Invalid state"⟩ ∧
    (∀ now2, (fireTimer now id s).1.childProcessFailed = false →
       ∃ id2, (transitionToStopped now2 (fireTimer now id s).1).1.timeout = some id2 ∧
         ∃ f2, (transitionToStopped now2 (fireTimer now id s).1).1.osTimers =
                 [Timer.mk id2 TimerKind.restart f2]) := by
  obtain ⟨st, iw, cfg, acp, tmo, ots, nti, np, rt, cpf⟩ := s
  replace ht : ots = [Timer.mk id TimerKind.restart f] := ht
  subst ht
  refine ⟨?_, ?_, ?_, ?_, ?_, ?_⟩
  · simp [fireTimer, restartChild, hs]
  · simp [fireTimer, restartChild, hs]
  · simp [fireTimer, restartChild, hs]
  · simp [fireTimer, restartChild, hs]
  · simp [fireTimer, restartChild, hs]
  · intro now2 hcpf
    replace hcpf : cpf = false := by
      simpa [fireTimer, restartChild, hs] using hcpf
    subst hcpf
    simp [fireTimer, restartChild, hs, transitionToStopped, scheduleRestart,
          clearTimeout_none, armTimer, clearTimeout]

theorem restart_fire_outside_stopped_raises_witness :
    raceSup.state ≠ State.Stopped ∧
    raceSup.osTimers = [Timer.mk 0 TimerKind.restart 100] ∧
    ((fireTimer 100 0 raceSup).1.state = raceSup.state ∧
     (fireTimer 100 0 raceSup).1.activeChildProcess = raceSup.activeChildProcess ∧
     (fireTimer 100 0 raceSup).1.restartTime = raceSup.restartTime ∧
     (∀ p, Effect.spawned p ∉ (fireTimer 100 0 raceSup).2.1) ∧
     (fireTimer 100 0 raceSup).2.2 = some ⟨"Invalid state"⟩ ∧
     (∀ now2, (fireTimer 100 0 raceSup).1.childProcessFailed = false →
        ∃ id2, (transitionToStopped now2 (fireTimer 100 0 raceSup).1).1.timeout = some id2 ∧
          ∃ f2, (transitionToStopped now2 (fireTimer 100 0 raceSup).1).1.osTimers =
                  [Timer.mk id2 TimerKind.restart f2])) :=
  ⟨by decide, rfl,
   restart_fire_outside_stopped_raises 100 100 0 raceSup (by decide) rfl⟩

/-- Claim C2, counterexample: at `pendingSup` (Stopped, deadline 100,
restart timer armed), the restart timer fires successfully at time 100
(no error, a child is spawned — the restart is consumed), yet the
RestartDeadline is NOT cleared: `_restartTime` is still `some 100` after
the fire, although no `requestRestart` call has set a new one. -/
theorem restart_fire_deadline_not_cleared_cex :
    (fireTimer 100 0 pendingSup).2.2 = none ∧
    Effect.spawned 1 ∈ (fireTimer 100 0 pendingSup).2.1 ∧
    (fireTimer 100 0 pendingSup).1.restartTime = some 100 := by
  refine ⟨rfl, ?_, rfl⟩
  decide

/-- Claim C2 as amended: when the restart timer fires, the timer handle
is cleared (`_timeout = undefined`, and the armed timer is gone), but
the RestartDeadline field `_restartTime` is NOT cleared — it retains its
previous value; only a later `requestRestart` with a later candidate
ever overwrites it. -/
theorem restart_fire_keeps_deadline (now f : Int) (id : Nat) (s : Sup)
    (ht : s.osTimers = [Timer.mk id TimerKind.restart f]) :
    (fireTimer now id s).1.timeout = none ∧
    (fireTimer now id s).1.osTimers = [] ∧
    (fireTimer now id s).1.restartTime = s.restartTime := by
  obtain ⟨st, iw, cfg, acp, tmo, ots, nti, np, rt, cpf⟩ := s
  replace ht : ots = [Timer.mk id TimerKind.restart f] := ht
  subst ht
  by_cases hs : st = State.Stopped
  · subst hs
    refine ⟨?_, ?_, ?_⟩ <;> simp [fireTimer, restartChild, clearTimeout_none]
  · refine ⟨?_, ?_, ?_⟩ <;> simp [fireTimer, restartChild, hs]

theorem restart_fire_keeps_deadline_witness :
    pendingSup.osTimers = [Timer.mk 0 TimerKind.restart 100] ∧
    ((fireTimer 100 0 pendingSup).1.timeout = none ∧
     (fireTimer 100 0 pendingSup).1.osTimers = [] ∧
     (fireTimer 100 0 pendingSup).1.restartTime = pendingSup.restartTime) :=
  ⟨rfl, restart_fire_keeps_deadline 100 100 0 pendingSup rfl⟩

/-! ### The escalation chain (claim C4) -/

/-- A configuration with symbolic timeouts. -/
def c4Config (w T1 T2 : Int) : Config :=
  { commandName := "serve", ignoreMissingScript := false,
    waitBeforeRestartMs := w, waitForTerminateMs := T1,
    waitForKillMs := T2 }

/-- The never-exiting-child scenario on a POSIX platform: the service is
started once from the initial state, a stop request arrives at time 0,
and then only timers fire (the child delivers no close/error event
because it never exits).  Returns the timed effect trace (stop-request
effects tagged at 0, then `fuel` timer firings) and the final state. -/
def c4Scenario (w T1 T2 : Int) (fuel : Nat) : List TimedEffect × Sup :=
  let s1 := (restartChild (initialSup false (c4Config w T1 T2))).1
  let r := stopChild 0 s1
  let run := runTimers fuel r.1
  (tagAt 0 r.2.1 ++ run.1, run.2)

set_option maxHeartbeats 2000000 in
/-- Claim C4: with `waitForTerminateMs = T1` and `waitForKillMs = T2`,
a child that never exits observes, after a stop request at t = 0 on a
platform with reliable group signaling, exactly three events in order:
the graceful signal (SIGTERM) at t = 0, the forceful signal (SIGKILL) at
t = T1, and the return to Stopped — the abandonment, logged as an error
— at t = T1 + T2.  The signals of the whole run (even one more timer
firing later, namely the rescheduled restart) are exactly those two, so
no signal occurs earlier and no further signal is sent afterward; after
one timer firing the state is only Killing, after the second it is
Stopped. -/
theorem escalation_chain_spec (w T1 T2 : Int) (h1 : 0 ≤ T1) (h2 : 0 ≤ T2) :
    signalsOf (c4Scenario w T1 T2 3).1 =
      [⟨0, Effect.sigterm 1⟩, ⟨T1, Effect.sigkill 1⟩] ∧
    (c4Scenario w T1 T2 1).2.state = State.Killing ∧
    (c4Scenario w T1 T2 2).2.state = State.Stopped ∧
    TimedEffect.mk (T1 + T2)
        (Effect.logError "Abandoning child process because SIGKILL did not work")
      ∈ (c4Scenario w T1 T2 2).1 ∧
    0 ≤ T1 ∧ T1 ≤ T1 + T2 := by
  have e3 : signalsOf (c4Scenario w T1 T2 3).1 =
      [⟨0, Effect.sigterm 1⟩, ⟨0 + T1, Effect.sigkill 1⟩] := rfl
  have e1 : (c4Scenario w T1 T2 1).2.state = State.Killing := rfl
  have e2 : (c4Scenario w T1 T2 2).2.state = State.Stopped := rfl
  have etr : (c4Scenario w T1 T2 2).1 =
      [⟨0, Effect.logVerbose "Sending SIGTERM"⟩,
       ⟨0, Effect.sigterm 1⟩,
       ⟨0 + T1, Effect.logWarning "Child is taking too long to terminate"⟩,
       ⟨0 + T1, Effect.logVerbose "Sending SIGKILL"⟩,
       ⟨0 + T1, Effect.logVerbose "Sending SIGKILL"⟩,
       ⟨0 + T1, Effect.sigkill 1⟩,
       ⟨0 + T1 + T2,
        Effect.logError "Abandoning child process because SIGKILL did not work"⟩,
       ⟨0 + T1 + T2, Effect.logVerbose "Extending timeout"⟩] := rfl
  refine ⟨?_, e1, e2, ?_, h1, by omega⟩
  · rw [e3]
    simp
  · rw [etr]
    simp

theorem escalation_chain_spec_witness :
    (0:Int) ≤ 2000 ∧ (0:Int) ≤ 3000 ∧
    (signalsOf (c4Scenario 1000 2000 3000 3).1 =
       [⟨0, Effect.sigterm 1⟩, ⟨2000, Effect.sigkill 1⟩] ∧
     (c4Scenario 1000 2000 3000 1).2.state = State.Killing ∧
     (c4Scenario 1000 2000 3000 2).2.state = State.Stopped ∧
     TimedEffect.mk (2000 + 3000)
         (Effect.logError "Abandoning child process because SIGKILL did not work")
       ∈ (c4Scenario 1000 2000 3000 2).1 ∧
     (0:Int) ≤ 2000 ∧ (2000:Int) ≤ 2000 + 3000) :=
  ⟨by decide, by decide,
   escalation_chain_spec 1000 2000 3000 (by decide) (by decide)⟩

end NodeService
